import Mathlib

/-!
Shallow embedding of `sticker_maker/background.py` (background-removal
pipeline): media-kind classification, the ffmpeg process runner, the
ffprobe rate prober (including CPython's `Fraction` string parsing, which
the prober relies on), frame extraction, the per-frame transform loop,
video composition, and the `remove_background` orchestrator.  Effectful
code is modelled by an explicit environment (results of external
processes, the filesystem listing, the rembg capability) and an event
trace (log lines, process executions, directory creation, file writes,
rembg invocations).
-/

namespace StickerMaker

/-- Python regex `\s` for `str` patterns, as used by
`fractions._RATIONAL_FORMAT`: the `str.isspace` set — ASCII whitespace and
separators 0x9-0xD, 0x1C-0x20, plus NEL, NBSP, and the Unicode space
separators (U+1680, U+2000-U+200A, U+2028, U+2029, U+202F, U+205F,
U+3000). -/
def isPySpace (c : Char) : Bool :=
  let n := c.toNat
  (0x9 ≤ n ∧ n ≤ 0xd) ∨ (0x1c ≤ n ∧ n ≤ 0x20) ∨ n = 0x85 ∨ n = 0xa0 ∨
    n = 0x1680 ∨ (0x2000 ≤ n ∧ n ≤ 0x200a) ∨ n = 0x2028 ∨ n = 0x2029 ∨
    n = 0x202f ∨ n = 0x205f ∨ n = 0x3000

/-- Consume the `(_\d+)*` tail of a digit group in CPython's
`_RATIONAL_FORMAT` (an underscore must be followed by at least one digit);
returns the consumed digits with underscores removed, and the rest. -/
def parseUGroups : Nat → List Char → List Char × List Char
  | 0, cs => ([], cs)
  | fuel + 1, '_' :: cs =>
    let d := cs.takeWhile Char.isDigit
    if d.isEmpty then ([], '_' :: cs)
    else
      let p := parseUGroups fuel (cs.dropWhile Char.isDigit)
      (d ++ p.1, p.2)
  | _, cs => ([], cs)

/-- `\d+(_\d+)*`: at least one leading digit, then optional
underscore-separated digit groups. -/
def parseUDigits (cs : List Char) : Option (List Char × List Char) :=
  let d := cs.takeWhile Char.isDigit
  if d.isEmpty then none
  else
    let p := parseUGroups cs.length (cs.dropWhile Char.isDigit)
    some (d ++ p.1, p.2)

def digitsToNat (ds : List Char) : Nat :=
  ds.foldl (fun a c => a * 10 + (c.toNat - 48)) 0

/-- The (numerator, denominator) pair CPython's `Fraction.__new__` builds
from a matched string, before normalisation (a zero denominator makes the
constructor raise `ZeroDivisionError` during normalisation). -/
structure PyFraction where
  num : Int
  den : Nat
deriving DecidableEq, Repr

/-- CPython (3.10/3.11) `Fraction(string)`: `none` models a `ValueError`
raised by the constructor.  The `_RATIONAL_FORMAT` pattern accepts optional
surrounding whitespace (Python's Unicode `\s`), an optional sign, then
either `num/denom` (integer numerator and denominator, no whitespace
around the slash) or a decimal literal `num[.decimal][E exp]`; digit
groups may contain underscores.  The pattern's decimal group reads
`d*|\d+(_\d+)*` (a literal `d`): a capture of `d` characters always makes
the constructor's `int()` raise `ValueError`, so it never yields a parse
this function does not, and `none` covers it. -/
def fractionOfString (s : String) : Option PyFraction :=
  let cs0 := s.data.dropWhile isPySpace
  let sp : Int × List Char :=
    match cs0 with
    | '+' :: r => (1, r)
    | '-' :: r => (-1, r)
    | r => (1, r)
  let sgn := sp.1
  let cs := sp.2
  let lookOk :=
    match cs with
    | '.' :: c :: _ => c.isDigit
    | c :: _ => c.isDigit
    | [] => false
  if !lookOk then none
  else
    let nd0 := cs.takeWhile Char.isDigit
    let np : List Char × List Char :=
      if nd0.isEmpty then (nd0, cs)
      else
        let p := parseUGroups cs.length (cs.dropWhile Char.isDigit)
        (nd0 ++ p.1, p.2)
    let numDigits := np.1
    let rest := np.2
    match rest with
    | '/' :: r =>
      match parseUDigits r with
      | none => none
      | some dp =>
        if (dp.2.dropWhile isPySpace).isEmpty then
          some ⟨sgn * digitsToNat numDigits, digitsToNat dp.1⟩
        else none
    | _ =>
      let decp : List Char × List Char :=
        match rest with
        | '.' :: r =>
          let d := r.takeWhile Char.isDigit
          if d.isEmpty then ([], r)
          else
            let p := parseUGroups r.length (r.dropWhile Char.isDigit)
            (d ++ p.1, p.2)
        | r => ([], r)
      let decDigits := decp.1
      let expPart : Option (Int × List Char) :=
        match decp.2 with
        | 'e' :: r | 'E' :: r =>
          let ep : Int × List Char :=
            match r with
            | '+' :: t => (1, t)
            | '-' :: t => (-1, t)
            | t => (1, t)
          match parseUDigits ep.2 with
          | none => none
          | some q => some (ep.1 * digitsToNat q.1, q.2)
        | r => some (0, r)
      match expPart with
      | none => none
      | some eq =>
        if (eq.2.dropWhile isPySpace).isEmpty then
          let mant : Int := sgn * digitsToNat (numDigits ++ decDigits)
          let scale : Nat := 10 ^ decDigits.length
          if 0 ≤ eq.1 then
            some ⟨mant * 10 ^ eq.1.toNat, scale⟩
          else
            some ⟨mant, scale * 10 ^ (-eq.1).toNat⟩
        else none

/-- Fixed-point decimal rendering of a rational with `prec` digits after
the point, rounding to nearest; models CPython's `format(value, '.Nf')`
for the values arising here (whose scaled values are exact).  The rounded
scaled value `⌊q·10^prec + 1/2⌋` is computed on the numerator and
denominator directly. -/
def formatFixed (prec : Nat) (q : ℚ) : String :=
  let n : Int := Int.fdiv (2 * q.num * 10 ^ prec + q.den) (2 * q.den)
  let sgnStr := if n < 0 then "-" else ""
  let m := n.natAbs
  let ip := m / 10 ^ prec
  let fp := m % 10 ^ prec
  let fpStr := toString fp
  let pad := String.mk (List.replicate (prec - fpStr.length) '0')
  if prec = 0 then sgnStr ++ toString ip
  else sgnStr ++ toString ip ++ "." ++ pad ++ fpStr

/-- `background.py` line 108: the warning logged when the `avg_frame_rate`
value cannot be converted. -/
def fpsWarnMsg (avg : String) : String :=
  "Не удалось преобразовать значение FPS '" ++ avg ++ "', используется 30."

/-- `background.py` line 115: the informational FPS log line. -/
def fpsInfoMsg (v : ℚ) : String :=
  "FPS источника: " ++ formatFixed 2 v

/-- `background.py` lines 101-116: convert the `avg_frame_rate` string to a
frame rate.  `Fraction` parse failure or a zero denominator falls back to
30 with a warning; otherwise the value is clamped to [1, 60].  Returns the
value together with the log lines emitted by this section. -/
def fpsFromAvg (avg : String) : ℚ × List String :=
  match fractionOfString avg with
  | none => (30, [fpsWarnMsg avg])
  | some f =>
    if f.den = 0 then (30, [fpsWarnMsg avg])
    else
      let value : ℚ := mkRat f.num f.den
      let clamped := max 1 (min 60 value)
      (clamped, [fpsInfoMsg clamped])

/-- `background.py` lines 20-28. -/
def imageExtensions : List String :=
  [".png", ".jpg", ".jpeg", ".webp", ".bmp", ".tiff", ".tif"]

/-- Python `str.lower()` (character-wise; the extensions compared here are
ASCII). -/
def pyLower (s : String) : String :=
  String.mk (s.data.map Char.toLower)

/-- `background.py` line 173: `source.suffix.lower() in _IMAGE_EXTENSIONS`. -/
def classifyIsImage (sfx : String) : Bool :=
  imageExtensions.contains (pyLower sfx)

/-- Outcome of `subprocess.run(..., check=False, capture_output=True,
text=True)`. -/
structure ProcOutcome where
  returncode : Int
  stdout : String
  stderr : String
deriving Repr

/-- The slice of an ffprobe stream object the code reads:
`stream.get("avg_frame_rate")` (`none` when the key is absent). -/
structure StreamObj where
  avgFrameRate : Option String
deriving Repr

/-- The slice of `json.loads(process.stdout)` the code reads:
`data.get("streams")` (`none` when the key is absent). -/
structure ProbeJson where
  streams : Option (List StreamObj)
deriving Repr

/-- Observable events of a pipeline run: log lines, external process
executions (program and argument list as passed to `subprocess.run`),
directory creation, file writes, and invocations of the rembg removal
capability (with the input bytes). -/
inductive Ev where
  | log (msg : String)
  | exec (prog : String) (args : List String)
  | mkdir (dir : String)
  | writeFile (path : String)
  | rembg (data : String)
deriving DecidableEq, Repr

/-- Errors the embedded code can raise: `BackgroundRemovalError(msg)`, or
the untyped `json.JSONDecodeError` escaping from `json.loads`. -/
inductive PyError where
  | backgroundRemoval (msg : String)
  | jsonDecode
deriving DecidableEq, Repr

/-- The external world as `background.py` observes it: tool resolution on
PATH (`shutil.which`), results of `subprocess.run`, `json.loads` applied to
ffprobe's stdout (`none` models `JSONDecodeError`), availability of the
`rembg` import, the removal capability on raw bytes, file contents, and
directory listings (`glob dir pattern`, in filesystem order). -/
structure Env where
  whichFfmpeg : Bool
  whichFfprobe : Bool
  run : String → List String → ProcOutcome
  jsonLoads : String → Option ProbeJson
  rembgImportable : Bool
  rembgRemove : String → String
  readBytes : String → String
  glob : String → String → List String

/-- `background.py` lines 126, 189: the message of the error raised when
`rembg` cannot be imported. -/
def rembgMissingMsg : String :=
  "Библиотека rembg не установлена. Добавьте 'rembg' в зависимости."

/-- `background.py` lines 39-61, `_run_ffmpeg`: check ffmpeg is on PATH,
log the command, run it, and on a non-zero exit code log captured stdout
and stderr and raise.  Returns the event trace and the outcome. -/
def runFfmpeg (env : Env) (args : List String) : List Ev × Except PyError Unit :=
  if !env.whichFfmpeg then
    ([], .error (.backgroundRemoval
      "ffmpeg не найден. Установите ffmpeg и добавьте его в PATH."))
  else
    let command := "ffmpeg" :: "-y" :: args
    let pre := [Ev.log ("Запуск ffmpeg: " ++ String.intercalate " " command),
                Ev.exec "ffmpeg" ("-y" :: args)]
    let p := env.run "ffmpeg" ("-y" :: args)
    if p.returncode ≠ 0 then
      (pre ++ [Ev.log p.stdout, Ev.log p.stderr],
       .error (.backgroundRemoval
         ("ffmpeg завершился с ошибкой (код " ++ toString p.returncode ++ ").")))
    else
      (pre, .ok ())

/-- The argument list `_probe_fps` passes to ffprobe
(`background.py` lines 70-80). -/
def probeArgs (path : String) : List String :=
  ["-v", "error", "-select_streams", "v:0", "-print_format", "json",
   "-show_streams", path]

/-- `background.py` lines 64-116, `_probe_fps`: check ffprobe is on PATH,
run it, raise on non-zero exit (logging captured stderr), parse the JSON
stdout, read `avg_frame_rate` of the first stream (defaulting missing
pieces to `"0/0"`), and convert it via `fpsFromAvg`. -/
def probeFps (env : Env) (path : String) : List Ev × Except PyError ℚ :=
  if !env.whichFfprobe then
    ([], .error (.backgroundRemoval
      "ffprobe не найден. Установите ffmpeg (включая ffprobe)."))
  else
    let args := probeArgs path
    let pre := [Ev.log ("Определение FPS через ffprobe: " ++
                  String.intercalate " " ("ffprobe" :: args)),
                Ev.exec "ffprobe" args]
    let p := env.run "ffprobe" args
    if p.returncode ≠ 0 then
      (pre ++ [Ev.log p.stderr],
       .error (.backgroundRemoval
         ("Не удалось определить FPS (код " ++ toString p.returncode ++ ").")))
    else
      match env.jsonLoads p.stdout with
      | none => (pre, .error .jsonDecode)
      | some data =>
        let streams :=
          match data.streams with
          | none => [StreamObj.mk none]
          | some [] => [StreamObj.mk none]
          | some l => l
        let stream := streams.headD (StreamObj.mk none)
        let avg :=
          match stream.avgFrameRate with
          | none => "0/0"
          | some s => if s = "" then "0/0" else s
        let r := fpsFromAvg avg
        (pre ++ r.2.map Ev.log, .ok r.1)

/-- `background.py` lines 134-137, `_extract_video_frames`: create the
frames directory and run ffmpeg with `-i source frames/frame_%07d.png`. -/
def extractVideoFrames (env : Env) (sourceStr framesDir : String) :
    List Ev × Except PyError Unit :=
  let r := runFfmpeg env ["-i", sourceStr, framesDir ++ "/frame_%07d.png"]
  (Ev.mkdir framesDir :: r.1, r.2)

/-- `background.py` lines 140-163, `_compose_video_from_frames`: fail if
the frames directory holds no `frame_*.png` file, else run ffmpeg with the
frame rate formatted to three decimals, the numeric frame pattern, the
VP9 codec and the alpha pixel format. -/
def composeVideoFromFrames (env : Env) (framesDir : String) (fps : ℚ)
    (destination : String) : List Ev × Except PyError Unit :=
  let framePattern := framesDir ++ "/frame_%07d.png"
  if (env.glob framesDir "frame_*.png").isEmpty then
    ([], .error (.backgroundRemoval
      ("Кадры для сборки видео не найдены: " ++ framesDir)))
  else
    runFfmpeg env
      ["-framerate", formatFixed 3 fps, "-i", framePattern,
       "-c:v", "libvpx-vp9", "-pix_fmt", "yuva420p", destination]

/-- `background.py` lines 119-131, `_remove_background_from_image`: log,
check the rembg dependency (raising if unavailable), read the source
bytes, apply the removal capability, write the destination, log
completion. -/
def removeBackgroundFromImage (env : Env) (sourceStr destination : String) :
    List Ev × Except PyError Unit :=
  let l1 := Ev.log ("Удаление фона у изображения " ++ sourceStr ++ "…")
  if !env.rembgImportable then
    ([l1], .error (.backgroundRemoval rembgMissingMsg))
  else
    let data := env.readBytes sourceStr
    ([l1, Ev.rembg data, Ev.writeFile destination,
      Ev.log ("Фон удалён: " ++ destination)], .ok ())

/-- `background.py` line 197: the per-frame progress log line. -/
def frameProgressMsg (index total : Nat) (name : String) : String :=
  "Удаление фона из кадра " ++ toString index ++ "/" ++ toString total ++
    ": " ++ name

/-- `background.py` lines 196-200: the sequential per-frame loop — for each
frame (1-based index) log progress, read the frame bytes, apply the removal
capability, and write the result under the same name into the processed
directory. -/
def transformLoop (env : Env) (framesDir processedDir : String) (total : Nat) :
    Nat → List String → List Ev
  | _, [] => []
  | index, name :: rest =>
    Ev.log (frameProgressMsg index total name) ::
      Ev.rembg (env.readBytes (framesDir ++ "/" ++ name)) ::
        Ev.writeFile (processedDir ++ "/" ++ name) ::
          transformLoop env framesDir processedDir total (index + 1) rest

/-- Stable insertion of a string into a sorted list (ascending). -/
def insertSorted (x : String) : List String → List String
  | [] => [x]
  | y :: ys => if x ≤ y then x :: y :: ys else y :: insertSorted x ys

/-- Python `sorted` on the glob results (ascending, stable). -/
def sortStrings (l : List String) : List String :=
  l.foldr insertSorted []

/-- A source path as the code uses it: directory, stem and suffix
(`Path.stem` / `Path.suffix`, already resolved). -/
structure SrcPath where
  dir : String
  stem : String
  sfx : String

/-- The string form of a source path. -/
def SrcPath.toStr (p : SrcPath) : String :=
  p.dir ++ "/" ++ p.stem ++ p.sfx

/-- `background.py` lines 31-36. -/
structure BackgroundRemovalResult where
  source : String
  processed : String
deriving DecidableEq, Repr

/-- `background.py` line 194: the message of the error raised when
extraction produced no frames. -/
def noFramesMsg : String := "ffmpeg не создал ни одного кадра."

/-- `background.py` lines 166-207, `remove_background`: classify by
extension; on the image path run the single-image removal; on the video
path extract frames, create the processed directory, import rembg, list
and sort the extracted frames (failing if none), run the per-frame loop,
probe the frame rate, compose the output video, and return the result.
Returns the full event trace and the outcome. -/
def removeBackground (env : Env) (src : SrcPath) (workspace : String) :
    List Ev × Except PyError BackgroundRemovalResult :=
  let sourceStr := src.toStr
  let e0 := [Ev.log ("Начало удаления фона из " ++ sourceStr)]
  if classifyIsImage src.sfx then
    let processed := workspace ++ "/" ++ src.stem ++ "_bg_removed.png"
    let r := removeBackgroundFromImage env sourceStr processed
    (e0 ++ r.1, r.2.map fun _ => BackgroundRemovalResult.mk sourceStr processed)
  else
    let framesDir := workspace ++ "/frames"
    let rE := extractVideoFrames env sourceStr framesDir
    match rE.2 with
    | .error err => (e0 ++ rE.1, .error err)
    | .ok _ =>
      let processedDir := workspace ++ "/frames_processed"
      let e1 := e0 ++ rE.1 ++ [Ev.mkdir processedDir]
      if !env.rembgImportable then
        (e1, .error (.backgroundRemoval rembgMissingMsg))
      else
        let framePaths := sortStrings (env.glob framesDir "frame_*.png")
        if framePaths.isEmpty then
          (e1, .error (.backgroundRemoval noFramesMsg))
        else
          let evLoop := transformLoop env framesDir processedDir
            framePaths.length 1 framePaths
          let rP := probeFps env sourceStr
          match rP.2 with
          | .error err => (e1 ++ evLoop ++ rP.1, .error err)
          | .ok fps =>
            let processedVideo :=
              workspace ++ "/" ++ src.stem ++ "_bg_removed.webm"
            let rC := composeVideoFromFrames env processedDir fps processedVideo
            match rC.2 with
            | .error err => (e1 ++ evLoop ++ rP.1 ++ rC.1, .error err)
            | .ok _ =>
              (e1 ++ evLoop ++ rP.1 ++ rC.1 ++
                 [Ev.log ("Видео с прозрачным фоном сохранено: " ++
                   processedVideo)],
               .ok (BackgroundRemovalResult.mk sourceStr processedVideo))

instance {ε α} [DecidableEq ε] [DecidableEq α] : DecidableEq (Except ε α) := by
  intro a b
  cases a <;> cases b
  case error.error e f => exact decidable_of_iff (e = f) (by simp)
  case ok.ok x y => exact decidable_of_iff (x = y) (by simp)
  all_goals exact .isFalse (by intro h; cases h)

/-- Recogniser: an execution of the stream-inspection tool. -/
def isProbeExec : Ev → Bool
  | .exec "ffprobe" _ => true
  | _ => false

/-- Recogniser: an invocation of the rembg removal capability. -/
def isRembgEv : Ev → Bool
  | .rembg _ => true
  | _ => false

/-- Recogniser: the frame-extraction ffmpeg run (`-y -i …`). -/
def isExtractExec : Ev → Bool
  | .exec "ffmpeg" ("-y" :: "-i" :: _) => true
  | _ => false

/-- Recogniser: the composition ffmpeg run (`-y -framerate …`). -/
def isComposeExec : Ev → Bool
  | .exec "ffmpeg" ("-y" :: "-framerate" :: _) => true
  | _ => false

/-- An environment whose ffprobe succeeds and reports `avg` as the first
stream's average frame rate; one extracted frame; rembg appends a tag. -/
def probeEnvFor (avg : String) : Env :=
  ⟨true, true, fun _ _ => ProcOutcome.mk 0 "PROBE-JSON" "",
   fun _ => some (ProbeJson.mk (some [StreamObj.mk (some avg)])), true,
   fun d => d ++ "#nobg", fun p => "bytes:" ++ p,
   fun _ _ => ["frame_0000001.png"]⟩

/-- An environment where no external tool is on PATH. -/
def noToolsEnv : Env :=
  ⟨false, false, fun _ _ => ProcOutcome.mk 0 "" "", fun _ => none, true,
   fun d => d, fun _ => "", fun _ _ => []⟩

/-- An environment whose ffprobe exits with code 1, with captured stdout
`"PROBE-STDOUT"` and stderr `"PROBE-STDERR"`. -/
def failingProbeEnv : Env :=
  ⟨true, true, fun _ _ => ProcOutcome.mk 1 "PROBE-STDOUT" "PROBE-STDERR",
   fun _ => none, true, fun d => d, fun _ => "", fun _ _ => []⟩

/-- An environment whose ffmpeg exits with code 2, with captured stdout
`"FF-OUT"` and stderr `"FF-ERR"`. -/
def failingFfmpegEnv : Env :=
  ⟨true, true, fun _ _ => ProcOutcome.mk 2 "FF-OUT" "FF-ERR",
   fun _ => none, true, fun d => d, fun _ => "", fun _ _ => []⟩

/-- An environment whose ffprobe exits 0 but with stdout that is not valid
JSON (`jsonLoads` fails). -/
def badJsonEnv : Env :=
  ⟨true, true, fun _ _ => ProcOutcome.mk 0 "not json" "", fun _ => none,
   true, fun d => d, fun _ => "", fun _ _ => []⟩

/-- An environment where extraction succeeds but produces no frame files
(every directory listing is empty). -/
def noFramesEnv : Env :=
  ⟨true, true, fun _ _ => ProcOutcome.mk 0 "{}" "", fun _ => none, true,
   fun d => d, fun _ => "", fun _ _ => []⟩

/-- The video source used by concrete runs. -/
def srcVideo : SrcPath := SrcPath.mk "/in" "clip" ".mp4"

theorem any_takeWhile_false {α} {p q : α → Bool} {l : List α}
    (h : l.any p = false) : (l.takeWhile q).any p = false := by
  induction l with
  | nil => rfl
  | cons a t ih =>
    simp only [List.any_cons, Bool.or_eq_false_iff] at h
    cases hq : q a <;>
      simp [List.takeWhile_cons, hq, List.any_cons, h.1, ih h.2]

theorem any_dropWhile_false {α} {p q : α → Bool} {l : List α}
    (h : l.any p = false) : (l.dropWhile q).any p = false := by
  induction l with
  | nil => rfl
  | cons a t ih =>
    simp only [List.any_cons, Bool.or_eq_false_iff] at h
    cases hq : q a <;>
      simp [List.dropWhile_cons, hq, List.any_cons, h.1, h.2, ih h.2]

theorem dropWhile_append_all {α} {q : α → Bool} {l₁ : List α}
    (h : l₁.any (fun a => !q a) = false) (l₂ : List α) :
    (l₁ ++ l₂).dropWhile q = l₂.dropWhile q := by
  induction l₁ with
  | nil => rfl
  | cons a t ih =>
    simp only [List.any_cons, Bool.or_eq_false_iff, Bool.not_eq_false'] at h
    simp [List.dropWhile_cons, h.1, ih h.2]

theorem takeWhile_append_stop {α} {q : α → Bool} {l₁ : List α}
    (h : l₁.any (fun a => !q a) = true) (l₂ : List α) :
    (l₁ ++ l₂).takeWhile q = l₁.takeWhile q := by
  induction l₁ with
  | nil => simp at h
  | cons a t ih =>
    cases hq : q a
    · simp [List.takeWhile_cons, hq]
    · simp only [List.any_cons, hq, Bool.not_true, Bool.false_or] at h
      simp [List.takeWhile_cons, hq, ih h]

theorem runFfmpeg_no_rembg (env : Env) (args : List String) :
    ((runFfmpeg env args).1.any isRembgEv) = false := by
  by_cases h : (env.run "ffmpeg" ("-y" :: args)).returncode = 0 <;>
    cases hw : env.whichFfmpeg <;>
      simp [runFfmpeg, h, hw, isRembgEv]

theorem runFfmpeg_no_probeExec (env : Env) (args : List String) :
    ((runFfmpeg env args).1.any isProbeExec) = false := by
  by_cases h : (env.run "ffmpeg" ("-y" :: args)).returncode = 0 <;>
    cases hw : env.whichFfmpeg <;>
      simp [runFfmpeg, h, hw, isProbeExec]

theorem probeFps_no_rembg (env : Env) (path : String) :
    ((probeFps env path).1.any isRembgEv) = false := by
  cases hw : env.whichFfprobe
  · simp [probeFps, hw, isRembgEv]
  · by_cases h : (env.run "ffprobe" (probeArgs path)).returncode = 0
    · cases hj : env.jsonLoads (env.run "ffprobe" (probeArgs path)).stdout <;>
        simp [probeFps, hw, h, hj, isRembgEv, List.any_map, Function.comp_def]
    · simp [probeFps, hw, h, isRembgEv]

theorem compose_no_rembg (env : Env) (fd : String) (fps : ℚ) (dst : String) :
    ((composeVideoFromFrames env fd fps dst).1.any isRembgEv) = false := by
  unfold composeVideoFromFrames
  split
  · rfl
  · exact runFfmpeg_no_rembg env _

theorem transformLoop_rembg_head (env : Env) (fd pd : String) (total i : Nat)
    (n : String) (rest : List String) :
    ((transformLoop env fd pd total i (n :: rest)).any isRembgEv) = true := by
  simp [transformLoop, isRembgEv]

theorem runFfmpeg_dash_i_no_composeExec (env : Env) (s p : String) :
    ((runFfmpeg env ["-i", s, p]).1.any isComposeExec) = false := by
  by_cases h : (env.run "ffmpeg" ("-y" :: ["-i", s, p])).returncode = 0 <;>
    cases hw : env.whichFfmpeg <;>
      simp [runFfmpeg, h, hw, isComposeExec]

theorem runFfmpeg_ok_has_exec (env : Env) (args : List String)
    (h : (runFfmpeg env args).2 = .ok ()) :
    Ev.exec "ffmpeg" ("-y" :: args) ∈ (runFfmpeg env args).1 := by
  by_cases hrc : (env.run "ffmpeg" ("-y" :: args)).returncode = 0 <;>
    cases hw : env.whichFfmpeg <;>
      simp [runFfmpeg, hrc, hw] at h ⊢

theorem extract_no_rembg (env : Env) (s fd : String) :
    ((extractVideoFrames env s fd).1.any isRembgEv) = false := by
  simp only [extractVideoFrames, List.any_cons, runFfmpeg_no_rembg,
    isRembgEv, Bool.or_false]

theorem extract_no_probeExec (env : Env) (s fd : String) :
    ((extractVideoFrames env s fd).1.any isProbeExec) = false := by
  simp only [extractVideoFrames, List.any_cons, runFfmpeg_no_probeExec,
    isProbeExec, Bool.or_false]

theorem extract_no_composeExec (env : Env) (s fd : String) :
    ((extractVideoFrames env s fd).1.any isComposeExec) = false := by
  simp only [extractVideoFrames, List.any_cons,
    runFfmpeg_dash_i_no_composeExec, isComposeExec, Bool.or_false]

theorem transformLoop_no_probeExec (env : Env) (fd pd : String)
    (total : Nat) : ∀ i names,
    ((transformLoop env fd pd total i names).any isProbeExec) = false := by
  intro i names
  induction names generalizing i with
  | nil => rfl
  | cons n rest ih =>
    simp only [transformLoop, List.any_cons, ih]
    rfl

theorem transformLoop_no_composeExec (env : Env) (fd pd : String)
    (total : Nat) : ∀ i names,
    ((transformLoop env fd pd total i names).any isComposeExec) = false := by
  intro i names
  induction names generalizing i with
  | nil => rfl
  | cons n rest ih =>
    simp only [transformLoop, List.any_cons, ih]
    rfl

/-- Trace decomposition of a video-path run: a prefix `pre` (start log,
extraction, directory creation) with no rembg/probe/compose events, the
transform loop `loop` with no process executions, and a suffix `post`
(probe, composition, final log) with no rembg events; moreover either the
loop transformed at least one frame and extraction's process ran inside
`pre`, or the run stopped before the loop (`loop` and `post` empty). -/
theorem removeBackground_video_shape (env : Env) (src : SrcPath)
    (ws : String) (h : classifyIsImage src.sfx = false) :
    ∃ pre loop post,
      (removeBackground env src ws).1 = pre ++ (loop ++ post) ∧
      pre.any isRembgEv = false ∧
      pre.any isProbeExec = false ∧
      pre.any isComposeExec = false ∧
      loop.any isProbeExec = false ∧
      loop.any isComposeExec = false ∧
      post.any isRembgEv = false ∧
      ((loop.any isRembgEv = true ∧ pre.any isExtractExec = true) ∨
        (loop = [] ∧ post = [])) := by
  rcases hE : (extractVideoFrames env (SrcPath.toStr src)
      (ws ++ "/frames")).2 with e | u
  · refine ⟨[Ev.log ("Начало удаления фона из " ++ SrcPath.toStr src)] ++
      (extractVideoFrames env (SrcPath.toStr src) (ws ++ "/frames")).1,
      [], [], ?_, ?_, ?_, ?_, rfl, rfl, rfl, Or.inr ⟨rfl, rfl⟩⟩
    · simp [removeBackground, h, hE]
    · simp [List.any_append, extract_no_rembg, isRembgEv]
    · simp [List.any_append, extract_no_probeExec, isProbeExec]
    · simp [List.any_append, extract_no_composeExec, isComposeExec]
  · have hexec : Ev.exec "ffmpeg"
        ("-y" :: ["-i", SrcPath.toStr src,
          ws ++ "/frames" ++ "/frame_%07d.png"]) ∈
        (extractVideoFrames env (SrcPath.toStr src) (ws ++ "/frames")).1 := by
      cases u
      simp only [extractVideoFrames] at hE ⊢
      exact List.mem_cons_of_mem _ (runFfmpeg_ok_has_exec env _ hE)
    have hPreR : (([Ev.log ("Начало удаления фона из " ++ SrcPath.toStr src)]
        ++ (extractVideoFrames env (SrcPath.toStr src) (ws ++ "/frames")).1
        ++ [Ev.mkdir (ws ++ "/frames_processed")]).any isRembgEv)
        = false := by
      simp [List.any_append, extract_no_rembg, isRembgEv]
    have hPreP : (([Ev.log ("Начало удаления фона из " ++ SrcPath.toStr src)]
        ++ (extractVideoFrames env (SrcPath.toStr src) (ws ++ "/frames")).1
        ++ [Ev.mkdir (ws ++ "/frames_processed")]).any isProbeExec)
        = false := by
      simp [List.any_append, extract_no_probeExec, isProbeExec]
    have hPreC : (([Ev.log ("Начало удаления фона из " ++ SrcPath.toStr src)]
        ++ (extractVideoFrames env (SrcPath.toStr src) (ws ++ "/frames")).1
        ++ [Ev.mkdir (ws ++ "/frames_processed")]).any isComposeExec)
        = false := by
      simp [List.any_append, extract_no_composeExec, isComposeExec]
    have hPreExt : (([Ev.log ("Начало удаления фона из " ++ SrcPath.toStr src)]
        ++ (extractVideoFrames env (SrcPath.toStr src) (ws ++ "/frames")).1
        ++ [Ev.mkdir (ws ++ "/frames_processed")]).any isExtractExec)
        = true := by
      refine List.any_eq_true.mpr ⟨Ev.exec "ffmpeg" ("-y" :: ["-i",
        SrcPath.toStr src, ws ++ "/frames" ++ "/frame_%07d.png"]),
        List.mem_append_left _ (List.mem_append_right _ hexec), rfl⟩
    cases hR : env.rembgImportable
    · refine ⟨[Ev.log ("Начало удаления фона из " ++ SrcPath.toStr src)] ++
        (extractVideoFrames env (SrcPath.toStr src) (ws ++ "/frames")).1 ++
        [Ev.mkdir (ws ++ "/frames_processed")],
        [], [], ?_, hPreR, hPreP, hPreC, rfl, rfl, rfl, Or.inr ⟨rfl, rfl⟩⟩
      cases u
      simp [removeBackground, h, hE, hR, List.append_assoc]
    · rcases hFP : sortStrings (env.glob (ws ++ "/frames") "frame_*.png")
          with _ | ⟨x, xs⟩
      · refine ⟨[Ev.log ("Начало удаления фона из " ++ SrcPath.toStr src)] ++
          (extractVideoFrames env (SrcPath.toStr src) (ws ++ "/frames")).1 ++
          [Ev.mkdir (ws ++ "/frames_processed")],
          [], [], ?_, hPreR, hPreP, hPreC, rfl, rfl, rfl, Or.inr ⟨rfl, rfl⟩⟩
        cases u
        simp [removeBackground, h, hE, hR, hFP, List.append_assoc]
      · have hLoopP := transformLoop_no_probeExec env (ws ++ "/frames")
          (ws ++ "/frames_processed") (x :: xs).length 1 (x :: xs)
        have hLoopC := transformLoop_no_composeExec env (ws ++ "/frames")
          (ws ++ "/frames_processed") (x :: xs).length 1 (x :: xs)
        have hLoopR := transformLoop_rembg_head env (ws ++ "/frames")
          (ws ++ "/frames_processed") (x :: xs).length 1 x xs
        rcases hP : (probeFps env (SrcPath.toStr src)).2 with e | fps
        · refine ⟨_, _, (probeFps env (SrcPath.toStr src)).1, ?_, hPreR,
            hPreP, hPreC, hLoopP, hLoopC, probeFps_no_rembg env _,
            Or.inl ⟨hLoopR, hPreExt⟩⟩
          cases u
          simp [removeBackground, h, hE, hR, hFP, hP, List.append_assoc]
        · rcases hC : (composeVideoFromFrames env (ws ++ "/frames_processed")
              fps (ws ++ "/" ++ src.stem ++ "_bg_removed.webm")).2 with e | v
          · refine ⟨_, _, (probeFps env (SrcPath.toStr src)).1 ++
              (composeVideoFromFrames env (ws ++ "/frames_processed") fps
                (ws ++ "/" ++ src.stem ++ "_bg_removed.webm")).1, ?_, hPreR,
              hPreP, hPreC, hLoopP, hLoopC, ?_,
              Or.inl ⟨hLoopR, hPreExt⟩⟩
            · cases u
              simp [removeBackground, h, hE, hR, hFP, hP, hC,
                List.append_assoc]
            · simp [List.any_append, probeFps_no_rembg, compose_no_rembg]
          · refine ⟨_, _, (probeFps env (SrcPath.toStr src)).1 ++
              ((composeVideoFromFrames env (ws ++ "/frames_processed") fps
                (ws ++ "/" ++ src.stem ++ "_bg_removed.webm")).1 ++
               [Ev.log ("Видео с прозрачным фоном сохранено: " ++
                 (ws ++ "/" ++ src.stem ++ "_bg_removed.webm"))]), ?_, hPreR,
              hPreP, hPreC, hLoopP, hLoopC, ?_,
              Or.inl ⟨hLoopR, hPreExt⟩⟩
            · cases u
              cases v
              simp [removeBackground, h, hE, hR, hFP, hP, hC,
                List.append_assoc]
            · simp [List.any_append, List.any_cons, probeFps_no_rembg,
                compose_no_rembg, isRembgEv]

/-- C1 counterexample: the claim maps `"0.5/1"` to `1.0` (lower clamp), but
on `"0.5/1"` the Rate Prober returns the fallback `30` with a logged
warning and not `1`: CPython's `Fraction` rejects a rational string whose
numerator part contains a decimal point. -/
theorem C1_rate_parsing_counterexample :
    (probeFps (probeEnvFor "0.5/1") "/in/clip.mp4").2 = .ok 30 ∧
    Ev.log (fpsWarnMsg "0.5/1") ∈
      (probeFps (probeEnvFor "0.5/1") "/in/clip.mp4").1 ∧
    ¬ (probeFps (probeEnvFor "0.5/1") "/in/clip.mp4").2 = .ok 1 := by
  decide

/-- C1 (amended): rate parsing by the Rate Prober maps `"30/1"` to `30.0`;
`"0/0"` to the fallback `30.0` with a warning through the logging sink;
`"120/1"` to `60.0` (upper clamp); and `"0.5/1"` — unparsable for
CPython's `Fraction` — to the fallback `30.0` with a warning through the
logging sink (not to the lower clamp `1.0`). -/
theorem C1_rate_parsing_amended :
    (probeFps (probeEnvFor "30/1") "/in/clip.mp4").2 = .ok 30 ∧
    ((probeFps (probeEnvFor "0/0") "/in/clip.mp4").2 = .ok 30 ∧
      Ev.log (fpsWarnMsg "0/0") ∈
        (probeFps (probeEnvFor "0/0") "/in/clip.mp4").1) ∧
    (probeFps (probeEnvFor "120/1") "/in/clip.mp4").2 = .ok 60 ∧
    ((probeFps (probeEnvFor "0.5/1") "/in/clip.mp4").2 = .ok 30 ∧
      Ev.log (fpsWarnMsg "0.5/1") ∈
        (probeFps (probeEnvFor "0.5/1") "/in/clip.mp4").1) := by
  decide

/-- C8 (confirmed): when the required external program is not resolvable
on PATH, both the ffmpeg runner and the stream-inspection probe fail
immediately with an error naming the missing tool, with an empty event
trace — in particular no external process execution happens. -/
theorem C8_tool_not_found_confirmed :
    (∀ (env : Env) (args : List String), env.whichFfmpeg = false →
      runFfmpeg env args = ([], .error (.backgroundRemoval
        "ffmpeg не найден. Установите ffmpeg и добавьте его в PATH."))) ∧
    (∀ (env : Env) (path : String), env.whichFfprobe = false →
      probeFps env path = ([], .error (.backgroundRemoval
        "ffprobe не найден. Установите ffmpeg (включая ffprobe).")))  := by
  constructor
  · intro env args h
    simp [runFfmpeg, h]
  · intro env path h
    simp [probeFps, h]

/-- Witness for C8 at a concrete environment with no tools on PATH. -/
theorem C8_tool_not_found_witness :
    runFfmpeg noToolsEnv ["-i", "/in/clip.mp4"] = ([], .error
      (.backgroundRemoval
        "ffmpeg не найден. Установите ffmpeg и добавьте его в PATH.")) ∧
    probeFps noToolsEnv "/in/clip.mp4" = ([], .error (.backgroundRemoval
      "ffprobe не найден. Установите ffmpeg (включая ffprobe).")) :=
  ⟨C8_tool_not_found_confirmed.1 noToolsEnv ["-i", "/in/clip.mp4"] rfl,
   C8_tool_not_found_confirmed.2 noToolsEnv "/in/clip.mp4" rfl⟩

/-- C9 (confirmed): media-kind classification is a pure total function of
the extension — a source is a still image exactly when its lowercased
extension is in the recognised set; every other extension, including the
GIF container and unrecognised ones, is video-or-animation. -/
theorem C9_classification_confirmed :
    (∀ sfx : String, classifyIsImage sfx = true ↔
      pyLower sfx ∈ imageExtensions) ∧
    classifyIsImage ".PNG" = true ∧ classifyIsImage ".Jpeg" = true ∧
    classifyIsImage ".gif" = false ∧ classifyIsImage ".GIF" = false ∧
    classifyIsImage ".mp4" = false ∧ classifyIsImage ".xyz" = false := by
  refine ⟨fun sfx => ?_, by decide, by decide, by decide, by decide,
    by decide, by decide⟩
  simp [classifyIsImage]

/-- C10 (confirmed): when ffprobe exits 0 but its stdout is not valid
JSON, the Rate Prober raises the untyped JSON-decoding error — not the
typed `BackgroundRemovalError`, and it does not fall back to any value
(in particular not to the default 30). -/
theorem C10_json_decode_confirmed (env : Env) (path : String)
    (hW : env.whichFfprobe = true)
    (hRC : (env.run "ffprobe" (probeArgs path)).returncode = 0)
    (hJ : env.jsonLoads (env.run "ffprobe" (probeArgs path)).stdout = none) :
    (probeFps env path).2 = .error .jsonDecode ∧
    (∀ msg, ¬ (probeFps env path).2 = .error (.backgroundRemoval msg)) ∧
    (∀ q : ℚ, ¬ (probeFps env path).2 = .ok q) := by
  have h2 : (probeFps env path).2 = .error .jsonDecode := by
    simp [probeFps, hW, hRC, hJ]
  refine ⟨h2, ?_, ?_⟩ <;> intro x hx <;> rw [h2] at hx <;> simp at hx

/-- C4 counterexample: when ffprobe exits non-zero, only its captured
stderr is forwarded to the logging sink; its captured stdout
(`"PROBE-STDOUT"`) is not — refuting "both captured streams are forwarded
… for every external-tool invocation in the core". -/
theorem C4_stream_logging_counterexample :
    (probeFps failingProbeEnv "/in/clip.mp4").2 =
      .error (.backgroundRemoval "Не удалось определить FPS (код 1).") ∧
    Ev.log "PROBE-STDERR" ∈ (probeFps failingProbeEnv "/in/clip.mp4").1 ∧
    Ev.log "PROBE-STDOUT" ∉ (probeFps failingProbeEnv "/in/clip.mp4").1 := by
  decide

/-- C4 (amended): when an invoked external process exits non-zero, the
ffmpeg runner forwards both captured stdout and captured stderr to the
logging sink before its typed error is raised, while the
stream-inspection probe forwards only its captured stderr before its
typed error is raised. -/
theorem C4_stream_logging_amended :
    (∀ (env : Env) (args : List String), env.whichFfmpeg = true →
      ¬ (env.run "ffmpeg" ("-y" :: args)).returncode = 0 →
      (runFfmpeg env args).2 = .error (.backgroundRemoval
        ("ffmpeg завершился с ошибкой (код " ++
          toString (env.run "ffmpeg" ("-y" :: args)).returncode ++ ").")) ∧
      Ev.log (env.run "ffmpeg" ("-y" :: args)).stdout ∈
        (runFfmpeg env args).1 ∧
      Ev.log (env.run "ffmpeg" ("-y" :: args)).stderr ∈
        (runFfmpeg env args).1) ∧
    (∀ (env : Env) (path : String), env.whichFfprobe = true →
      ¬ (env.run "ffprobe" (probeArgs path)).returncode = 0 →
      (probeFps env path).2 = .error (.backgroundRemoval
        ("Не удалось определить FPS (код " ++
          toString (env.run "ffprobe" (probeArgs path)).returncode ++ ").")) ∧
      Ev.log (env.run "ffprobe" (probeArgs path)).stderr ∈
        (probeFps env path).1) := by
  constructor
  · intro env args hw hrc
    refine ⟨?_, ?_, ?_⟩ <;> simp [runFfmpeg, hw, hrc]
  · intro env path hw hrc
    refine ⟨?_, ?_⟩ <;> simp [probeFps, hw, hrc]

/-- Witness for C4 at concrete failing environments. -/
theorem C4_stream_logging_witness :
    ((runFfmpeg failingFfmpegEnv ["-i", "/in/clip.mp4"]).2 = .error
        (.backgroundRemoval "ffmpeg завершился с ошибкой (код 2).") ∧
      Ev.log "FF-OUT" ∈ (runFfmpeg failingFfmpegEnv ["-i", "/in/clip.mp4"]).1 ∧
      Ev.log "FF-ERR" ∈
        (runFfmpeg failingFfmpegEnv ["-i", "/in/clip.mp4"]).1) ∧
    ((probeFps failingProbeEnv "/in/clip.mp4").2 = .error
        (.backgroundRemoval "Не удалось определить FPS (код 1).") ∧
      Ev.log "PROBE-STDERR" ∈ (probeFps failingProbeEnv "/in/clip.mp4").1) :=
  ⟨C4_stream_logging_amended.1 failingFfmpegEnv ["-i", "/in/clip.mp4"] rfl
      (by decide),
   C4_stream_logging_amended.2 failingProbeEnv "/in/clip.mp4" rfl (by decide)⟩

/-- C5 (confirmed): a video input whose extraction succeeds but yields
zero frame files fails with the no-frames-produced error, and the rembg
removal capability is never invoked (no rembg event in the whole trace). -/
theorem C5_no_frames_confirmed (env : Env) (src : SrcPath) (ws : String)
    (hImg : classifyIsImage src.sfx = false)
    (hFF : env.whichFfmpeg = true)
    (hRC : (env.run "ffmpeg" ["-y", "-i", SrcPath.toStr src,
      ws ++ "/frames" ++ "/frame_%07d.png"]).returncode = 0)
    (hRem : env.rembgImportable = true)
    (hGlob : env.glob (ws ++ "/frames") "frame_*.png" = []) :
    (removeBackground env src ws).2 = .error (.backgroundRemoval noFramesMsg) ∧
    ((removeBackground env src ws).1.any isRembgEv) = false := by
  refine ⟨?_, ?_⟩ <;>
    simp [removeBackground, extractVideoFrames, runFfmpeg, hImg, hFF, hRC,
      hRem, hGlob, sortStrings, isRembgEv]

/-- Witness for C5 at a concrete environment where extraction produces no
frame files. -/
theorem C5_no_frames_witness :
    (removeBackground noFramesEnv srcVideo "/ws").2 =
      .error (.backgroundRemoval noFramesMsg) ∧
    ((removeBackground noFramesEnv srcVideo "/ws").1.any isRembgEv) = false :=
  C5_no_frames_confirmed noFramesEnv srcVideo "/ws" (by decide) rfl rfl rfl rfl

/-- C7 (confirmed): the Frame Composer fails with the no-frames error
(before any process run — empty trace) when the frames directory has no
`frame_*.png` file; otherwise it invokes the muxing tool with the frame
rate formatted to three decimal places, the numeric frame-pattern glob,
the VP9 codec and the alpha-preserving pixel format; and 24 is formatted
as "24.000". -/
theorem C7_compose_confirmed (env : Env) (fd : String) (fps : ℚ)
    (dst : String) :
    (env.glob fd "frame_*.png" = [] →
      composeVideoFromFrames env fd fps dst = ([], .error (.backgroundRemoval
        ("Кадры для сборки видео не найдены: " ++ fd)))) ∧
    (¬ env.glob fd "frame_*.png" = [] → env.whichFfmpeg = true →
      Ev.exec "ffmpeg" ["-y", "-framerate", formatFixed 3 fps, "-i",
        fd ++ "/frame_%07d.png", "-c:v", "libvpx-vp9", "-pix_fmt",
        "yuva420p", dst] ∈ (composeVideoFromFrames env fd fps dst).1) ∧
    formatFixed 3 24 = "24.000" := by
  refine ⟨?_, ?_, by decide⟩
  · intro h
    simp [composeVideoFromFrames, h]
  · intro h hw
    rcases hg : env.glob fd "frame_*.png" with _ | ⟨a, t⟩
    · exact absurd hg h
    · by_cases hrc : (env.run "ffmpeg" ("-y" :: ["-framerate",
        formatFixed 3 fps, "-i", fd ++ "/frame_%07d.png", "-c:v",
        "libvpx-vp9", "-pix_fmt", "yuva420p", dst])).returncode = 0 <;>
        simp [composeVideoFromFrames, runFfmpeg, hw, hg, hrc]

/-- Witness for C7: the empty directory fails with the typed error; a
populated one leads to the documented ffmpeg invocation with
`-framerate 24.000`. -/
theorem C7_compose_witness :
    composeVideoFromFrames noFramesEnv "/ws/frames_processed" 24
      "/ws/clip_bg_removed.webm" = ([], .error (.backgroundRemoval
        "Кадры для сборки видео не найдены: /ws/frames_processed")) ∧
    Ev.exec "ffmpeg" ["-y", "-framerate", "24.000", "-i",
      "/ws/frames_processed/frame_%07d.png", "-c:v", "libvpx-vp9",
      "-pix_fmt", "yuva420p", "/ws/clip_bg_removed.webm"] ∈
      (composeVideoFromFrames (probeEnvFor "30/1") "/ws/frames_processed" 24
        "/ws/clip_bg_removed.webm").1 :=
  ⟨(C7_compose_confirmed noFramesEnv "/ws/frames_processed" 24
      "/ws/clip_bg_removed.webm").1 rfl,
   (C7_compose_confirmed (probeEnvFor "30/1") "/ws/frames_processed" 24
      "/ws/clip_bg_removed.webm").2.1 (by decide) rfl⟩

/-- C3 counterexample: in the one-frame sequence run, the progress
message (1/1) is emitted *before* the frame's output is written — its
trace index is strictly below the write's — refuting "the progress
message for frame i follows the write of frame i's output". -/
theorem C3_progress_order_counterexample :
    transformLoop (probeEnvFor "30/1") "/ws/frames" "/ws/frames_processed"
      1 1 ["frame_0000001.png"] =
      [Ev.log (frameProgressMsg 1 1 "frame_0000001.png"),
       Ev.rembg "bytes:/ws/frames/frame_0000001.png",
       Ev.writeFile "/ws/frames_processed/frame_0000001.png"] ∧
    List.indexOf (Ev.log (frameProgressMsg 1 1 "frame_0000001.png"))
        (transformLoop (probeEnvFor "30/1") "/ws/frames"
          "/ws/frames_processed" 1 1 ["frame_0000001.png"]) <
      List.indexOf (Ev.writeFile "/ws/frames_processed/frame_0000001.png")
        (transformLoop (probeEnvFor "30/1") "/ws/frames"
          "/ws/frames_processed" 1 1 ["frame_0000001.png"]) := by
  decide

/-- C3 (amended): in sequence mode each extracted frame, in order, gets a
progress message (current index / total count) through the logging sink,
then is read and processed through the removal capability, and its result
is written under its original filename into the output directory — the
progress message for frame i precedes (not follows) the write of frame
i's output. -/
theorem C3_transform_loop_amended (env : Env) (fd pd : String)
    (total : Nat) : ∀ (i : Nat) (names : List String),
    transformLoop env fd pd total i names =
      (names.enumFrom i).flatMap fun p =>
        [Ev.log (frameProgressMsg p.1 total p.2),
         Ev.rembg (env.readBytes (fd ++ "/" ++ p.2)),
         Ev.writeFile (pd ++ "/" ++ p.2)] := by
  intro i names
  induction names generalizing i with
  | nil => rfl
  | cons n rest ih =>
    simp only [transformLoop, List.enumFrom, List.flatMap_cons, ih]
    rfl

/-- C2 counterexample: in a successful concrete video run, a frame is
transformed (a rembg event occurs) strictly before the first execution of
the stream-inspection tool, although that execution does happen — so the
frame-rate probe does not finish before the first frame is transformed. -/
theorem C2_probe_order_counterexample :
    (((removeBackground (probeEnvFor "30/1") srcVideo "/ws").1.takeWhile
        fun e => !isProbeExec e).any isRembgEv = true) ∧
    ((removeBackground (probeEnvFor "30/1") srcVideo "/ws").1.any isProbeExec
      = true) := by
  decide

/-- C2 (amended): on the video path, Transforming begins only after
Extracting's process run (no rembg event before the extraction
execution, and none before it at all when extraction fails), and the
frame-rate probe — rather than finishing before the first frame is
transformed — runs only after Transforming: no rembg event occurs from
the first probe execution on, and no probe execution occurs before
transforming begins. -/
theorem C2_stage_order_amended (env : Env) (src : SrcPath) (ws : String)
    (hImg : classifyIsImage src.sfx = false) :
    (((removeBackground env src ws).1.dropWhile
        fun e => !isProbeExec e).any isRembgEv = false) ∧
    (((removeBackground env src ws).1.takeWhile
        fun e => !isRembgEv e).any isProbeExec = false) ∧
    (((removeBackground env src ws).1.takeWhile
        fun e => !isExtractExec e).any isRembgEv = false) := by
  obtain ⟨pre, loop, post, hTr, hPreR, hPreP, hPreC, hLoopP, hLoopC, hPostR,
    hLast⟩ := removeBackground_video_shape env src ws hImg
  rw [hTr]
  refine ⟨?_, ?_, ?_⟩
  · have hx : ((pre ++ loop).any fun a => !(!isProbeExec a)) = false := by
      simp [List.any_append, hPreP, hLoopP]
    rw [← List.append_assoc, dropWhile_append_all hx post]
    exact any_dropWhile_false hPostR
  · rcases hLast with ⟨hLoopR, _⟩ | ⟨hl, hp⟩
    · have hstop : ((pre ++ loop).any fun a => !(!isRembgEv a)) = true := by
        simp [List.any_append, hLoopR]
      rw [← List.append_assoc, takeWhile_append_stop hstop post]
      refine any_takeWhile_false ?_
      simp [List.any_append, hPreP, hLoopP]
    · subst hl
      subst hp
      simp only [List.nil_append, List.append_nil]
      exact any_takeWhile_false hPreP
  · rcases hLast with ⟨_, hPreExt⟩ | ⟨hl, hp⟩
    · have hstop : (pre.any fun a => !(!isExtractExec a)) = true := by
        simp [hPreExt]
      rw [takeWhile_append_stop hstop (loop ++ post)]
      exact any_takeWhile_false hPreR
    · subst hl
      subst hp
      simp only [List.nil_append, List.append_nil]
      exact any_takeWhile_false hPreR

/-- Witness for C2 at a successful concrete video run. -/
theorem C2_stage_order_witness :
    (((removeBackground (probeEnvFor "30/1") srcVideo "/ws").1.dropWhile
        fun e => !isProbeExec e).any isRembgEv = false) ∧
    (((removeBackground (probeEnvFor "30/1") srcVideo "/ws").1.takeWhile
        fun e => !isRembgEv e).any isProbeExec = false) ∧
    (((removeBackground (probeEnvFor "30/1") srcVideo "/ws").1.takeWhile
        fun e => !isExtractExec e).any isRembgEv = false) :=
  C2_stage_order_amended (probeEnvFor "30/1") srcVideo "/ws" (by decide)

/-- Witness for C10 at a concrete environment whose ffprobe prints
non-JSON output and exits 0. -/
theorem C10_json_decode_witness :
    (probeFps badJsonEnv "/in/clip.mp4").2 = .error .jsonDecode ∧
    ¬ (probeFps badJsonEnv "/in/clip.mp4").2 =
      .error (.backgroundRemoval (fpsWarnMsg "0/0")) ∧
    ¬ (probeFps badJsonEnv "/in/clip.mp4").2 = .ok 30 :=
  ⟨(C10_json_decode_confirmed badJsonEnv "/in/clip.mp4" rfl rfl rfl).1,
   (C10_json_decode_confirmed badJsonEnv "/in/clip.mp4" rfl rfl rfl).2.1 _,
   (C10_json_decode_confirmed badJsonEnv "/in/clip.mp4" rfl rfl rfl).2.2 30⟩

end StickerMaker
